import Mathlib

/-!
Shallow embedding of the `blob inspect` command, `cmd/notation/blob/inspect.go`.

The Go file holds two pieces of behaviour:

* the `Args` validator of the cobra command built by `inspectCommand`
  (lines 50-56), which stores the first positional argument into
  `opts.signaturePath`;
* `runBlobInspect` (lines 67-90), which validates the output format and
  then calls, in order, the media-type resolver, the bounded file reader,
  the signature inspector and the output printer.

The four collaborators live in other packages.  They are taken as
parameters (`Deps`), and every invocation is recorded, with its arguments
and its result, in the list of calls of the `Outcome`.  Each collaborator
is invoked at most once per run, so taking it as a function of its
arguments loses no behaviour.
-/

namespace BlobInspect

/-- A Go `error` value, identified by its message.  The Go `nil` error is
`none : Option Error`. -/
structure Error where
  msg : String
deriving DecidableEq, Repr

/-- File content: a sequence of bytes. -/
abbrev Bytes := List UInt8

/-- The struct `blobInspectOpts` (lines 27-31).  The embedded
`cmd.LoggingFlagOpts` is declared in another package; its type is the
parameter `L`. -/
structure blobInspectOpts (L : Type) where
  LoggingFlagOpts : L
  signaturePath : String
  outputFormat : String
deriving DecidableEq, Repr

/-- Modelled from the spec: the struct `outputs.InspectOutput` is declared in
a package that is not part of the sources at hand.  Section 3 of the
specification gives it a media type and an ordered sequence of signature
outputs, which are also the only two fields the composite literal of line 81
names.  The element type `outputs.SignatureOutput` is the parameter `σ`. -/
structure InspectOutput (σ : Type) where
  MediaType : String
  Signatures : List σ
deriving DecidableEq, Repr

/-- One collaborator invocation, with the arguments it received and the
result it gave back. -/
inductive Event (σ : Type) where
  | getEnvelopeMediaType (ext : String) (result : Except Error String)
  | readFile (path : String) (maxBytes : Int) (result : Except Error Bytes)
  | signatures (mediaType artifactRef : String) (output : InspectOutput σ)
      (envelopeBytes : Bytes) (result : Option Error × List σ)
  | printOutput (format path : String) (output : InspectOutput σ)
      (result : Option Error)

/-- The four collaborators. -/
inductive Kind where
  | resolver
  | reader
  | inspector
  | printer
deriving DecidableEq, Repr

/-- Which collaborator an event is an invocation of. -/
def Event.kind {σ : Type} : Event σ → Kind
  | .getEnvelopeMediaType _ _ => .resolver
  | .readFile _ _ _ => .reader
  | .signatures _ _ _ _ _ => .inspector
  | .printOutput _ _ _ _ => .printer

/-- What `inspect.go` imports from outside the file:
the two format constants `cmd.OutputJSON` and `cmd.OutputPlaintext`,
the standard-library function `filepath.Ext`, and the four collaborators
`envelope.GetEnvelopeMediaType`, `osutil.ReadFile`, `outputs.Signatures`
(which returns the error first and the signatures second) and
`outputs.PrintOutput`. -/
structure Deps (σ : Type) where
  OutputJSON : String
  OutputPlaintext : String
  Ext : String → String
  GetEnvelopeMediaType : String → Except Error String
  ReadFile : String → Int → Except Error Bytes
  Signatures : String → String → InspectOutput σ → Bytes → Option Error × List σ
  PrintOutput : String → String → InspectOutput σ → Option Error

/-- What a call leaves behind: the returned error (`none` is Go's `nil`),
the options struct behind the pointer `opts` after the call, and the
collaborator invocations made, in order. -/
structure Outcome (L σ : Type) where
  err : Option Error
  opts : blobInspectOpts L
  calls : List (Event σ)

/-- The `Args` closure of the command (lines 50-56), run on the options
struct that `opts` points to: the one handed to `inspectCommand`, or the fresh
one of line 35.  The closure ignores its `cmd` argument. -/
def inspectCommand.Args {L σ : Type} (opts : blobInspectOpts L) (args : List String) :
    Outcome L σ :=
  match args with
  | [] =>
    { err := some ⟨"missing signature path: use `notation blob inspect --help` to see what parameters are required"⟩
      opts := opts
      calls := [] }
  | a :: _ =>
    { err := none
      opts := { opts with signaturePath := a }
      calls := [] }

/-- The function `runBlobInspect` (lines 67-90). -/
def runBlobInspect {L σ : Type} (d : Deps σ) (opts : blobInspectOpts L) : Outcome L σ :=
  if opts.outputFormat ≠ d.OutputJSON ∧ opts.outputFormat ≠ d.OutputPlaintext then
    { err := some ⟨"unrecognized output format " ++ opts.outputFormat⟩
      opts := opts
      calls := [] }
  else
    let ext := d.Ext opts.signaturePath
    let r1 := d.GetEnvelopeMediaType ext
    let e1 : Event σ := .getEnvelopeMediaType ext r1
    match r1 with
    | .error err => { err := some err, opts := opts, calls := [e1] }
    | .ok mediaType =>
      let r2 := d.ReadFile opts.signaturePath 10485760
      let e2 : Event σ := .readFile opts.signaturePath 10485760 r2
      match r2 with
      | .error err => { err := some err, opts := opts, calls := [e1, e2] }
      | .ok signatureEnv =>
        let output : InspectOutput σ := { MediaType := mediaType, Signatures := [] }
        let r3 := d.Signatures mediaType "" output signatureEnv
        let e3 : Event σ := .signatures mediaType "" output signatureEnv r3
        let output : InspectOutput σ := { output with Signatures := r3.2 }
        match r3.1 with
        | some _ => { err := none, opts := opts, calls := [e1, e2, e3] }
        | none =>
          let r4 := d.PrintOutput opts.outputFormat opts.signaturePath output
          let e4 : Event σ := .printOutput opts.outputFormat opts.signaturePath output r4
          match r4 with
          | some err => { err := some err, opts := opts, calls := [e1, e2, e3, e4] }
          | none => { err := none, opts := opts, calls := [e1, e2, e3, e4] }

/-- Media-type resolution fails with `e`: the resolver returns the error `e`
on the extension of the signature path. -/
def ResolutionFails {L σ : Type} (d : Deps σ) (opts : blobInspectOpts L)
    (e : Error) : Prop :=
  d.GetEnvelopeMediaType (d.Ext opts.signaturePath) = .error e

/-- The bounded read fails with `e`: the reader returns the error `e` on the
signature path with the bound of line 77. -/
def ReadFails {L σ : Type} (d : Deps σ) (opts : blobInspectOpts L) (e : Error) : Prop :=
  d.ReadFile opts.signaturePath 10485760 = .error e

/-- The inspection gives `(ierr, sigs)`: the extension resolves to `mediaType`,
the read gives `signatureEnv`, and the inspector, on the arguments of line 82,
returns the error `ierr` and the signatures `sigs`. -/
def Inspected {L σ : Type} (d : Deps σ) (opts : blobInspectOpts L)
    (mediaType : String) (signatureEnv : Bytes) (ierr : Option Error) (sigs : List σ) :
    Prop :=
  d.GetEnvelopeMediaType (d.Ext opts.signaturePath) = .ok mediaType
    ∧ d.ReadFile opts.signaturePath 10485760 = .ok signatureEnv
    ∧ d.Signatures mediaType "" ⟨mediaType, []⟩ signatureEnv = (ierr, sigs)

/-- The inspector fails with `e`: it returns the error `e`, together with some
signatures. -/
def InspectionFails {L σ : Type} (d : Deps σ) (opts : blobInspectOpts L)
    (e : Error) : Prop :=
  ∃ (mediaType : String) (signatureEnv : Bytes) (sigs : List σ),
    Inspected d opts mediaType signatureEnv (some e) sigs

/-- The inspector succeeds and the printer fails with `e`: the inspector
returns no error, and the printer, on the arguments of line 86, returns the
error `e`. -/
def PrintFails {L σ : Type} (d : Deps σ) (opts : blobInspectOpts L) (e : Error) : Prop :=
  ∃ (mediaType : String) (signatureEnv : Bytes) (sigs : List σ),
    Inspected d opts mediaType signatureEnv none sigs
      ∧ d.PrintOutput opts.outputFormat opts.signaturePath ⟨mediaType, sigs⟩ = some e

/-! Sample collaborators.

A concrete set of dependencies on which the theorems below are exercised. -/

/-- Scan of `filepath.Ext` over the reversed path: `acc` holds the characters
already passed, in path order. -/
def extScan : List Char → List Char → List Char
  | [], _ => []
  | c :: rest, acc =>
    if c = '/' then []
    else if c = '.' then '.' :: acc
    else extScan rest (c :: acc)

/-- The standard-library `filepath.Ext` for a Unix path: the suffix starting
at the last dot of the last path element, empty when there is none. -/
def filepathExt (path : String) : String :=
  String.mk (extScan path.data.reverse [])

/-- A file content of 10 MiB and one byte. -/
@[irreducible]
def hugeContent : Bytes := List.replicate 10485761 0

/-- A small file system: five files, one of them larger than 10 MiB. -/
def sampleFiles (path : String) : Option Bytes :=
  if path = "sigs/good.jws" then some [1, 2, 3]
  else if path = "sigs/broken.cose" then some [255]
  else if path = "sigs/unprintable.jws" then some [7]
  else if path = "sigs/huge.jws" then some hugeContent
  else if path = "notes.txt" then some [104, 105]
  else none

/-- A bounded reader over `sampleFiles`: it fails on a missing file and on a
file larger than `maxBytes`. -/
def sampleReadFile (path : String) (maxBytes : Int) : Except Error Bytes :=
  match sampleFiles path with
  | none => .error ⟨"open: no such file or directory"⟩
  | some b =>
    if maxBytes < (b.length : Int) then .error ⟨"file size reached the limit"⟩
    else .ok b

/-- Sample dependencies, with `String` for the signature outputs. -/
def sampleDeps : Deps String where
  OutputJSON := "json"
  OutputPlaintext := "text"
  Ext := filepathExt
  GetEnvelopeMediaType := fun ext =>
    if ext = ".jws" then .ok "application/jose+json"
    else if ext = ".cose" then .ok "application/cose"
    else .error ⟨"unsupported signature format"⟩
  ReadFile := sampleReadFile
  Signatures := fun mediaType _ _ envelopeBytes =>
    if envelopeBytes = [255] then (some ⟨"malformed envelope"⟩, ["partial"])
    else (none, ["signer-1 " ++ mediaType, "signer-2 " ++ mediaType])
  PrintOutput := fun _ path _ =>
    if path = "sigs/unprintable.jws" then some ⟨"write: broken pipe"⟩ else none

/-- Sample options, with `Unit` for the logging flags. -/
def sampleOpts (path format : String) : blobInspectOpts Unit :=
  { LoggingFlagOpts := (), signaturePath := path, outputFormat := format }

/-! Path lemmas, then one theorem for each claim. -/

/-- Both format tests of line 68 fail exactly when the format is one of the
two constants. -/
theorem format_guard_iff {L σ : Type} (d : Deps σ) (opts : blobInspectOpts L) :
    ¬ (opts.outputFormat ≠ d.OutputJSON ∧ opts.outputFormat ≠ d.OutputPlaintext)
      ↔ (opts.outputFormat = d.OutputJSON ∨ opts.outputFormat = d.OutputPlaintext) := by
  by_cases h1 : opts.outputFormat = d.OutputJSON <;>
    by_cases h2 : opts.outputFormat = d.OutputPlaintext <;> simp [h1, h2]

/-- Path 1 (line 69): the format is rejected. -/
theorem run_bad_format {L σ : Type} (d : Deps σ) (opts : blobInspectOpts L)
    (hbad : opts.outputFormat ≠ d.OutputJSON ∧ opts.outputFormat ≠ d.OutputPlaintext) :
    runBlobInspect d opts
      = { err := some ⟨"unrecognized output format " ++ opts.outputFormat⟩
          opts := opts
          calls := [] } := by
  unfold runBlobInspect
  rw [if_pos hbad]

/-- Path 2 (line 75): the resolver fails. -/
theorem run_resolver_error {L σ : Type} (d : Deps σ) (opts : blobInspectOpts L)
    (e : Error)
    (hfmt : opts.outputFormat = d.OutputJSON ∨ opts.outputFormat = d.OutputPlaintext)
    (hres : d.GetEnvelopeMediaType (d.Ext opts.signaturePath) = .error e) :
    runBlobInspect d opts
      = { err := some e
          opts := opts
          calls := [.getEnvelopeMediaType (d.Ext opts.signaturePath) (.error e)] } := by
  unfold runBlobInspect
  rw [if_neg ((format_guard_iff d opts).mpr hfmt)]
  simp only [hres]

/-- Path 3 (line 79): the resolver succeeds and the reader fails. -/
theorem run_read_error {L σ : Type} (d : Deps σ) (opts : blobInspectOpts L)
    (mediaType : String) (e : Error)
    (hfmt : opts.outputFormat = d.OutputJSON ∨ opts.outputFormat = d.OutputPlaintext)
    (hres : d.GetEnvelopeMediaType (d.Ext opts.signaturePath) = .ok mediaType)
    (hread : d.ReadFile opts.signaturePath 10485760 = .error e) :
    runBlobInspect d opts
      = { err := some e
          opts := opts
          calls := [.getEnvelopeMediaType (d.Ext opts.signaturePath) (.ok mediaType),
                    .readFile opts.signaturePath 10485760 (.error e)] } := by
  unfold runBlobInspect
  rw [if_neg ((format_guard_iff d opts).mpr hfmt)]
  simp only [hres, hread]

/-- Path 4 (line 84): resolver and reader succeed and the inspector returns an
error. -/
theorem run_inspector_error {L σ : Type} (d : Deps σ) (opts : blobInspectOpts L)
    (mediaType : String) (signatureEnv : Bytes) (e : Error)
    (hfmt : opts.outputFormat = d.OutputJSON ∨ opts.outputFormat = d.OutputPlaintext)
    (hres : d.GetEnvelopeMediaType (d.Ext opts.signaturePath) = .ok mediaType)
    (hread : d.ReadFile opts.signaturePath 10485760 = .ok signatureEnv)
    (hinsp : (d.Signatures mediaType "" ⟨mediaType, []⟩ signatureEnv).1 = some e) :
    runBlobInspect d opts
      = { err := none
          opts := opts
          calls := [.getEnvelopeMediaType (d.Ext opts.signaturePath) (.ok mediaType),
                    .readFile opts.signaturePath 10485760 (.ok signatureEnv),
                    .signatures mediaType "" ⟨mediaType, []⟩ signatureEnv
                      (d.Signatures mediaType "" ⟨mediaType, []⟩ signatureEnv)] } := by
  unfold runBlobInspect
  rw [if_neg ((format_guard_iff d opts).mpr hfmt)]
  simp only [hres, hread, hinsp]

/-- Paths 5 and 6 (lines 86-89): resolver, reader and inspector succeed; the
result is the printer's. -/
theorem run_printed {L σ : Type} (d : Deps σ) (opts : blobInspectOpts L)
    (mediaType : String) (signatureEnv : Bytes)
    (hfmt : opts.outputFormat = d.OutputJSON ∨ opts.outputFormat = d.OutputPlaintext)
    (hres : d.GetEnvelopeMediaType (d.Ext opts.signaturePath) = .ok mediaType)
    (hread : d.ReadFile opts.signaturePath 10485760 = .ok signatureEnv)
    (hinsp : (d.Signatures mediaType "" ⟨mediaType, []⟩ signatureEnv).1 = none) :
    runBlobInspect d opts
      = { err := d.PrintOutput opts.outputFormat opts.signaturePath
                   ⟨mediaType, (d.Signatures mediaType "" ⟨mediaType, []⟩ signatureEnv).2⟩
          opts := opts
          calls := [.getEnvelopeMediaType (d.Ext opts.signaturePath) (.ok mediaType),
                    .readFile opts.signaturePath 10485760 (.ok signatureEnv),
                    .signatures mediaType "" ⟨mediaType, []⟩ signatureEnv
                      (d.Signatures mediaType "" ⟨mediaType, []⟩ signatureEnv),
                    .printOutput opts.outputFormat opts.signaturePath
                      ⟨mediaType, (d.Signatures mediaType "" ⟨mediaType, []⟩ signatureEnv).2⟩
                      (d.PrintOutput opts.outputFormat opts.signaturePath
                        ⟨mediaType,
                          (d.Signatures mediaType "" ⟨mediaType, []⟩ signatureEnv).2⟩)] } := by
  unfold runBlobInspect
  rw [if_neg ((format_guard_iff d opts).mpr hfmt)]
  simp only [hres, hread, hinsp]
  split <;> simp_all

/-- The paths of `runBlobInspect`: on every input exactly one of the returns
of lines 69, 75, 79, 84 and 87-89 is taken. -/
theorem run_cases {L σ : Type} (d : Deps σ) (opts : blobInspectOpts L) :
    ((opts.outputFormat ≠ d.OutputJSON ∧ opts.outputFormat ≠ d.OutputPlaintext)
        ∧ runBlobInspect d opts
            = { err := some ⟨"unrecognized output format " ++ opts.outputFormat⟩
                opts := opts
                calls := [] })
      ∨ ((opts.outputFormat = d.OutputJSON ∨ opts.outputFormat = d.OutputPlaintext)
          ∧ ((∃ e, d.GetEnvelopeMediaType (d.Ext opts.signaturePath) = .error e
                ∧ runBlobInspect d opts
                    = { err := some e
                        opts := opts
                        calls := [.getEnvelopeMediaType (d.Ext opts.signaturePath)
                                    (.error e)] })
            ∨ (∃ mediaType, d.GetEnvelopeMediaType (d.Ext opts.signaturePath) = .ok mediaType
                ∧ ((∃ e, d.ReadFile opts.signaturePath 10485760 = .error e
                      ∧ runBlobInspect d opts
                          = { err := some e
                              opts := opts
                              calls := [.getEnvelopeMediaType (d.Ext opts.signaturePath)
                                          (.ok mediaType),
                                        .readFile opts.signaturePath 10485760 (.error e)] })
                  ∨ (∃ signatureEnv,
                      d.ReadFile opts.signaturePath 10485760 = .ok signatureEnv
                        ∧ (runBlobInspect d opts).calls.take 2
                            = [.getEnvelopeMediaType (d.Ext opts.signaturePath)
                                 (.ok mediaType),
                               .readFile opts.signaturePath 10485760 (.ok signatureEnv)]
                        ∧ ∀ ev ∈ (runBlobInspect d opts).calls.drop 2,
                            ev.kind = .inspector ∨ ev.kind = .printer))))) := by
  by_cases hbad : opts.outputFormat ≠ d.OutputJSON ∧ opts.outputFormat ≠ d.OutputPlaintext
  · exact Or.inl ⟨hbad, run_bad_format d opts hbad⟩
  · have hfmt := (format_guard_iff d opts).mp hbad
    refine Or.inr ⟨hfmt, ?_⟩
    cases hres : d.GetEnvelopeMediaType (d.Ext opts.signaturePath) with
    | error e => exact Or.inl ⟨e, rfl, run_resolver_error d opts e hfmt hres⟩
    | ok mediaType =>
      refine Or.inr ⟨mediaType, rfl, ?_⟩
      cases hread : d.ReadFile opts.signaturePath 10485760 with
      | error e => exact Or.inl ⟨e, rfl, run_read_error d opts mediaType e hfmt hres hread⟩
      | ok signatureEnv =>
        refine Or.inr ⟨signatureEnv, rfl, ?_⟩
        cases hinsp : (d.Signatures mediaType "" ⟨mediaType, []⟩ signatureEnv).1 with
        | some e =>
          rw [run_inspector_error d opts mediaType signatureEnv e hfmt hres hread hinsp]
          simp [Event.kind]
        | none =>
          rw [run_printed d opts mediaType signatureEnv hfmt hres hread hinsp]
          simp [Event.kind]

/-- The sample extension function on the sample paths. -/
theorem filepathExt_samples :
    filepathExt "sigs/good.jws" = ".jws"
      ∧ filepathExt "sigs/broken.cose" = ".cose"
      ∧ filepathExt "sigs/unprintable.jws" = ".jws"
      ∧ filepathExt "sigs/huge.jws" = ".jws"
      ∧ filepathExt "notes.txt" = ".txt"
      ∧ filepathExt "v1.2/README" = "" := by
  refine ⟨?_, ?_, ?_, ?_, ?_, ?_⟩ <;> decide

/-- C1: an output format that is neither the JSON constant nor the plaintext
constant makes `runBlobInspect` return the error "unrecognized output format
<outputFormat>" with no collaborator invoked, whatever the signature path. -/
theorem runBlobInspect_unrecognized_format {L σ : Type} (d : Deps σ)
    (opts : blobInspectOpts L)
    (hj : opts.outputFormat ≠ d.OutputJSON)
    (hp : opts.outputFormat ≠ d.OutputPlaintext) :
    (runBlobInspect d opts).err
        = some ⟨"unrecognized output format " ++ opts.outputFormat⟩
      ∧ (runBlobInspect d opts).calls = [] := by
  unfold runBlobInspect
  rw [if_pos ⟨hj, hp⟩]
  exact ⟨rfl, rfl⟩

/-- Witness of C1: the format "yaml" on an existing, well-formed file. -/
theorem runBlobInspect_unrecognized_format_witness :
    (runBlobInspect sampleDeps (sampleOpts "sigs/good.jws" "yaml")).err
        = some ⟨"unrecognized output format yaml"⟩
      ∧ (runBlobInspect sampleDeps (sampleOpts "sigs/good.jws" "yaml")).calls = [] :=
  runBlobInspect_unrecognized_format sampleDeps (sampleOpts "sigs/good.jws" "yaml")
    (by decide) (by decide)

/-- C2: on the empty argument list the validator returns the "missing
signature path" error, invokes no collaborator and leaves the options as they
were. -/
theorem Args_empty {L σ : Type} (opts : blobInspectOpts L) :
    (inspectCommand.Args opts [] : Outcome L σ).err
        = some ⟨"missing signature path: use `notation blob inspect --help` to see what parameters are required"⟩
      ∧ (inspectCommand.Args opts [] : Outcome L σ).calls = []
      ∧ (inspectCommand.Args opts [] : Outcome L σ).opts = opts
      ∧ (inspectCommand.Args opts [] : Outcome L σ).opts.signaturePath = opts.signaturePath
      ∧ (inspectCommand.Args opts [] : Outcome L σ).opts.outputFormat = opts.outputFormat :=
  ⟨rfl, rfl, rfl, rfl, rfl⟩

/-- C3, as stated, fails: a list of two arguments is accepted although its
length is not one. -/
theorem Args_exactly_one_counterexample :
    ¬ ((inspectCommand.Args (sampleOpts "" "json") ["sigs/good.jws", "extra"]
          : Outcome Unit String).err = none
        ↔ ["sigs/good.jws", "extra"].length = 1) := by
  intro h
  have h2 : ["sigs/good.jws", "extra"].length = 1 := h.mp rfl
  exact absurd h2 (by decide)

/-- C3, amended: the validator succeeds if and only if the argument list is
not empty, and it fails with the "missing signature path" error otherwise. -/
theorem Args_succeeds_iff_nonempty {L σ : Type} (opts : blobInspectOpts L)
    (args : List String) :
    ((inspectCommand.Args opts args : Outcome L σ).err = none ↔ args ≠ [])
      ∧ ((inspectCommand.Args opts args : Outcome L σ).err = none ↔ 1 ≤ args.length)
      ∧ ((inspectCommand.Args opts args : Outcome L σ).err
            = some ⟨"missing signature path: use `notation blob inspect --help` to see what parameters are required"⟩
          ↔ args = []) := by
  cases args with
  | nil => simp [inspectCommand.Args]
  | cons a rest => simp [inspectCommand.Args]

/-- C10: on a non-empty argument list the validator succeeds, stores the
first argument as the signature path, ignores the other arguments and changes
nothing else; `runBlobInspect` gives back the options it was given. -/
theorem opts_frame {L σ : Type} (opts : blobInspectOpts L) :
    (∀ (a : String) (rest : List String),
        (inspectCommand.Args opts (a :: rest) : Outcome L σ).err = none
          ∧ (inspectCommand.Args opts (a :: rest) : Outcome L σ).opts
              = { opts with signaturePath := a }
          ∧ (inspectCommand.Args opts (a :: rest) : Outcome L σ).opts.signaturePath = a
          ∧ (inspectCommand.Args opts (a :: rest) : Outcome L σ).opts.outputFormat
              = opts.outputFormat
          ∧ (inspectCommand.Args opts (a :: rest) : Outcome L σ).opts.LoggingFlagOpts
              = opts.LoggingFlagOpts
          ∧ (inspectCommand.Args opts (a :: rest) : Outcome L σ).calls = [])
      ∧ (∀ d : Deps σ, (runBlobInspect d opts).opts = opts) := by
  refine ⟨fun a rest => ⟨rfl, rfl, rfl, rfl, rfl, rfl⟩, fun d => ?_⟩
  unfold runBlobInspect
  split
  · rfl
  · dsimp only
    split
    · rfl
    · split
      · rfl
      · split
        · rfl
        · split <;> rfl

/-- C4: with a valid output format, when the resolver fails on the extension
of the signature path, `runBlobInspect` returns exactly the resolver's error;
the resolver is the only collaborator invoked, so nothing is read, inspected
or printed. -/
theorem runBlobInspect_resolver_fails {L σ : Type} (d : Deps σ)
    (opts : blobInspectOpts L) (e : Error)
    (hfmt : opts.outputFormat = d.OutputJSON ∨ opts.outputFormat = d.OutputPlaintext)
    (hres : d.GetEnvelopeMediaType (d.Ext opts.signaturePath) = .error e) :
    (runBlobInspect d opts).err = some e
      ∧ (runBlobInspect d opts).calls
          = [.getEnvelopeMediaType (d.Ext opts.signaturePath) (.error e)]
      ∧ ∀ ev ∈ (runBlobInspect d opts).calls,
          ev.kind ≠ .reader ∧ ev.kind ≠ .inspector ∧ ev.kind ≠ .printer := by
  rw [run_resolver_error d opts e hfmt hres]
  refine ⟨rfl, rfl, ?_⟩
  intro ev hev
  simp only [List.mem_singleton] at hev
  subst hev
  simp [Event.kind]

/-- Witness of C4: a text file, whose extension the sample resolver does not
know. -/
theorem runBlobInspect_resolver_fails_witness :
    (runBlobInspect sampleDeps (sampleOpts "notes.txt" "text")).err
        = some ⟨"unsupported signature format"⟩
      ∧ (runBlobInspect sampleDeps (sampleOpts "notes.txt" "text")).calls
          = [.getEnvelopeMediaType ".txt" (.error ⟨"unsupported signature format"⟩)] := by
  have h := runBlobInspect_resolver_fails sampleDeps (sampleOpts "notes.txt" "text")
    ⟨"unsupported signature format"⟩ (Or.inr rfl)
    (by simp [sampleDeps, sampleOpts, filepathExt_samples])
  refine ⟨h.1, ?_⟩
  rw [h.2.1]
  simp [sampleDeps, sampleOpts, filepathExt_samples]

/-- C5: the file read is bounded by exactly 10 MiB.  Every read of a run is
the call of the reader on the signature path with `maxBytes = 10485760`, which
is `10 * 1024 * 1024`, and this call is made whenever the format is valid and
the extension resolves.  So for a reader that fails on content larger than its
`maxBytes` and a file of more than 10 MiB, the reader fails, the run returns
an error and prints nothing, and the error is the reader's whenever the read
is reached.  On any read failure neither the inspector nor the printer is
invoked, and a run that reaches the read returns the reader's error after the
resolver and reader calls only. -/
theorem runBlobInspect_read_bounded {L σ : Type} (d : Deps σ)
    (opts : blobInspectOpts L) :
    (10485760 : Int) = 10 * 1024 * 1024
      ∧ (∀ ev ∈ (runBlobInspect d opts).calls, ev.kind = .reader →
          ev = .readFile opts.signaturePath (10 * 1024 * 1024)
                 (d.ReadFile opts.signaturePath (10 * 1024 * 1024)))
      ∧ ((opts.outputFormat = d.OutputJSON ∨ opts.outputFormat = d.OutputPlaintext) →
          ∀ mediaType, d.GetEnvelopeMediaType (d.Ext opts.signaturePath) = .ok mediaType →
            Event.readFile opts.signaturePath (10 * 1024 * 1024)
                (d.ReadFile opts.signaturePath (10 * 1024 * 1024))
              ∈ (runBlobInspect d opts).calls)
      ∧ (∀ content : String → Bytes,
          (∀ (p : String) (m : Int), m < ((content p).length : Int) →
              ∃ e, d.ReadFile p m = .error e) →
          10 * 1024 * 1024 < ((content opts.signaturePath).length : Int) →
          ∃ e, d.ReadFile opts.signaturePath (10 * 1024 * 1024) = .error e
            ∧ (runBlobInspect d opts).err ≠ none
            ∧ (∀ ev ∈ (runBlobInspect d opts).calls,
                ev.kind ≠ .inspector ∧ ev.kind ≠ .printer)
            ∧ ((opts.outputFormat = d.OutputJSON ∨ opts.outputFormat = d.OutputPlaintext) →
                ∀ mediaType,
                  d.GetEnvelopeMediaType (d.Ext opts.signaturePath) = .ok mediaType →
                  (runBlobInspect d opts).err = some e))
      ∧ (∀ e, d.ReadFile opts.signaturePath 10485760 = .error e →
          (∀ ev ∈ (runBlobInspect d opts).calls,
              ev.kind ≠ .inspector ∧ ev.kind ≠ .printer)
            ∧ ((opts.outputFormat = d.OutputJSON ∨ opts.outputFormat = d.OutputPlaintext) →
                ∀ mediaType,
                  d.GetEnvelopeMediaType (d.Ext opts.signaturePath) = .ok mediaType →
                  (runBlobInspect d opts).err = some e
                    ∧ (runBlobInspect d opts).calls
                        = [.getEnvelopeMediaType (d.Ext opts.signaturePath) (.ok mediaType),
                           .readFile opts.signaturePath 10485760 (.error e)])) := by
  have hten : (10 : Int) * 1024 * 1024 = 10485760 := by norm_num
  rw [hten]
  have hfail : ∀ e, d.ReadFile opts.signaturePath 10485760 = .error e →
      (runBlobInspect d opts).err ≠ none
        ∧ (∀ ev ∈ (runBlobInspect d opts).calls,
            ev.kind ≠ .inspector ∧ ev.kind ≠ .printer)
        ∧ ((opts.outputFormat = d.OutputJSON ∨ opts.outputFormat = d.OutputPlaintext) →
            ∀ mediaType,
              d.GetEnvelopeMediaType (d.Ext opts.signaturePath) = .ok mediaType →
              (runBlobInspect d opts).err = some e
                ∧ (runBlobInspect d opts).calls
                    = [.getEnvelopeMediaType (d.Ext opts.signaturePath) (.ok mediaType),
                       .readFile opts.signaturePath 10485760 (.error e)]) := by
    intro e he
    rcases run_cases d opts with ⟨hbad, hrun⟩ | ⟨hfmt, ⟨e1, hres, hrun⟩ | ⟨mt, hres, h⟩⟩
    · rw [hrun]
      refine ⟨by simp, by simp, ?_⟩
      intro hfmt
      exact absurd hbad ((format_guard_iff d opts).mpr hfmt)
    · rw [hrun]
      refine ⟨by simp, by simp [Event.kind], ?_⟩
      intro _ mediaType hres2
      rw [hres] at hres2
      exact absurd hres2 (by simp)
    · rcases h with ⟨e2, hread, hrun⟩ | ⟨signatureEnv, hread, -, -⟩
      · rw [hrun]
        rw [hread] at he
        have hee : e2 = e := Except.error.inj he
        subst hee
        refine ⟨by simp, by simp [Event.kind], ?_⟩
        intro _ mediaType hres2
        rw [hres] at hres2
        have hmt : mt = mediaType := Except.ok.inj hres2
        subst hmt
        exact ⟨rfl, rfl⟩
      · rw [hread] at he
        exact absurd he (by simp)
  refine ⟨rfl, ?_, ?_, ?_, fun e he => (hfail e he).2⟩
  · intro ev hev hkind
    rcases run_cases d opts with ⟨-, hrun⟩ | ⟨-, ⟨e1, hres, hrun⟩ | ⟨mt, hres, h⟩⟩
    · rw [hrun] at hev
      simp at hev
    · rw [hrun] at hev
      simp only [List.mem_singleton] at hev
      subst hev
      simp [Event.kind] at hkind
    · rcases h with ⟨e2, hread, hrun⟩ | ⟨signatureEnv, hread, htake, hdrop⟩
      · rw [hrun] at hev
        simp only [List.mem_cons, List.mem_singleton, List.not_mem_nil, or_false] at hev
        rcases hev with h | h
        · subst h
          simp [Event.kind] at hkind
        · rw [h, hread]
      · rw [← List.take_append_drop 2 (runBlobInspect d opts).calls, List.mem_append] at hev
        rcases hev with h | h
        · rw [htake] at h
          simp only [List.mem_cons, List.mem_singleton, List.not_mem_nil, or_false] at h
          rcases h with h | h
          · subst h
            simp [Event.kind] at hkind
          · rw [h, hread]
        · rcases hdrop ev h with hk | hk <;> rw [hk] at hkind <;> simp at hkind
  · intro hfmt mediaType hres
    rcases run_cases d opts with ⟨hbad, -⟩ | ⟨-, ⟨e1, hres1, -⟩ | ⟨mt, hres1, h⟩⟩
    · exact absurd hbad ((format_guard_iff d opts).mpr hfmt)
    · rw [hres] at hres1
      exact absurd hres1 (by simp)
    · rcases h with ⟨e2, hread, hrun⟩ | ⟨signatureEnv, hread, htake, -⟩
      · rw [hrun, hread]
        simp
      · have hmem : Event.readFile opts.signaturePath 10485760 (.ok signatureEnv)
            ∈ (runBlobInspect d opts).calls.take 2 := by
          rw [htake]
          simp
        rw [hread]
        exact List.mem_of_mem_take hmem
  · intro content hbounded hbig
    obtain ⟨e, he⟩ := hbounded opts.signaturePath 10485760 hbig
    obtain ⟨hne, hno, hret⟩ := hfail e he
    exact ⟨e, he, hne, hno, fun hfmt mediaType hres => (hret hfmt mediaType hres).1⟩

/-- The sample reader fails on every file larger than the bound it is given. -/
theorem sampleReadFile_bounded (p : String) (m : Int)
    (h : m < ((((sampleFiles p).getD []).length : Nat) : Int)) :
    ∃ e, sampleReadFile p m = .error e := by
  unfold sampleReadFile
  cases hp : sampleFiles p with
  | none => exact ⟨_, rfl⟩
  | some b =>
    rw [hp] at h
    simp only [Option.getD_some] at h
    simp only [h, if_true]
    exact ⟨_, rfl⟩

/-- The content `hugeContent` holds 10485761 bytes. -/
theorem hugeContent_length : hugeContent.length = 10485761 := by
  unfold hugeContent
  exact List.length_replicate 10485761 (0 : UInt8)

/-- The sample file `sigs/huge.jws` is `hugeContent`. -/
theorem sampleFiles_huge : sampleFiles "sigs/huge.jws" = some hugeContent := by
  simp [sampleFiles]

/-- The sample reader refuses `sigs/huge.jws` under the 10 MiB bound. -/
theorem sampleReadFile_huge :
    sampleReadFile "sigs/huge.jws" 10485760 = .error ⟨"file size reached the limit"⟩ := by
  unfold sampleReadFile
  rw [sampleFiles_huge]
  simp only [hugeContent_length]
  norm_num

/-- Witness of C5: the sample file of 10 MiB + 1 byte is refused by the sample
reader, and the run stops there with the reader's error. -/
theorem runBlobInspect_read_bounded_witness :
    (10 * 1024 * 1024 : Int) < ((((sampleFiles "sigs/huge.jws").getD []).length : Nat) : Int)
      ∧ (runBlobInspect sampleDeps (sampleOpts "sigs/huge.jws" "json")).err
          = some ⟨"file size reached the limit"⟩
      ∧ (runBlobInspect sampleDeps (sampleOpts "sigs/huge.jws" "json")).calls
          = [.getEnvelopeMediaType ".jws" (.ok "application/jose+json"),
             .readFile "sigs/huge.jws" 10485760 (.error ⟨"file size reached the limit"⟩)] := by
  have hsize : (10 * 1024 * 1024 : Int)
      < ((((sampleFiles "sigs/huge.jws").getD []).length : Nat) : Int) := by
    rw [sampleFiles_huge, Option.getD_some, hugeContent_length]
    norm_num
  have hread : sampleDeps.ReadFile "sigs/huge.jws" 10485760
      = .error ⟨"file size reached the limit"⟩ := sampleReadFile_huge
  have hres : sampleDeps.GetEnvelopeMediaType
      (sampleDeps.Ext (sampleOpts "sigs/huge.jws" "json").signaturePath)
      = .ok "application/jose+json" := by
    simp [sampleDeps, sampleOpts, filepathExt_samples]
  obtain ⟨-, -, -, hbig, hfail⟩ :=
    runBlobInspect_read_bounded sampleDeps (sampleOpts "sigs/huge.jws" "json")
  obtain ⟨e, he, -, -, herr⟩ := hbig (fun p => (sampleFiles p).getD [])
    (fun p m h => sampleReadFile_bounded p m h) hsize
  have hten : (10 : Int) * 1024 * 1024 = 10485760 := by norm_num
  rw [hten] at he
  have hee : e = ⟨"file size reached the limit"⟩ := by
    have h2 : (Except.error e : Except Error Bytes)
        = .error ⟨"file size reached the limit"⟩ := he.symm.trans hread
    exact Except.error.inj h2
  subst hee
  refine ⟨hsize, herr (Or.inl rfl) _ hres, ?_⟩
  rw [((hfail _ hread).2 (Or.inl rfl) _ hres).2]
  simp [sampleDeps, sampleOpts, filepathExt_samples]

/-- C6: with a valid format, a resolved media type and a successful read, an
error of the inspector is not returned: `runBlobInspect` returns nil. -/
theorem runBlobInspect_inspector_error_swallowed {L σ : Type} (d : Deps σ)
    (opts : blobInspectOpts L) (mediaType : String) (signatureEnv : Bytes) (e : Error)
    (hfmt : opts.outputFormat = d.OutputJSON ∨ opts.outputFormat = d.OutputPlaintext)
    (hres : d.GetEnvelopeMediaType (d.Ext opts.signaturePath) = .ok mediaType)
    (hread : d.ReadFile opts.signaturePath 10485760 = .ok signatureEnv)
    (hinsp : (d.Signatures mediaType "" ⟨mediaType, []⟩ signatureEnv).1 = some e) :
    (runBlobInspect d opts).err = none ∧ (runBlobInspect d opts).err ≠ some e := by
  rw [run_inspector_error d opts mediaType signatureEnv e hfmt hres hread hinsp]
  exact ⟨rfl, by simp⟩

/-- Witness of C6: the sample inspector rejects the envelope of
`sigs/broken.cose`, and the run still returns nil. -/
theorem runBlobInspect_inspector_error_swallowed_witness :
    (sampleDeps.Signatures "application/cose" "" ⟨"application/cose", []⟩ [255]).1
        = some ⟨"malformed envelope"⟩
      ∧ (runBlobInspect sampleDeps (sampleOpts "sigs/broken.cose" "text")).err = none := by
  have hinsp : (sampleDeps.Signatures "application/cose" "" ⟨"application/cose", []⟩ [255]).1
      = some ⟨"malformed envelope"⟩ := by simp [sampleDeps]
  exact ⟨hinsp,
    (runBlobInspect_inspector_error_swallowed sampleDeps (sampleOpts "sigs/broken.cose" "text")
      "application/cose" [255] ⟨"malformed envelope"⟩ (Or.inr rfl)
      (by simp [sampleDeps, sampleOpts, filepathExt_samples])
      (by simp [sampleDeps, sampleOpts, sampleReadFile, sampleFiles])
      hinsp).1⟩

/-- C7, as stated, fails: on `sigs/broken.cose` the format is valid, the
extension resolves, the read succeeds and the inspector returns an error with
a partial list of signatures, and yet the printer is not invoked, neither on
that partial output nor at all. -/
theorem runBlobInspect_inspector_error_print_counterexample :
    (sampleOpts "sigs/broken.cose" "json").outputFormat = sampleDeps.OutputJSON
      ∧ sampleDeps.GetEnvelopeMediaType (sampleDeps.Ext "sigs/broken.cose")
          = .ok "application/cose"
      ∧ sampleDeps.ReadFile "sigs/broken.cose" 10485760 = .ok [255]
      ∧ sampleDeps.Signatures "application/cose" "" ⟨"application/cose", []⟩ [255]
          = (some ⟨"malformed envelope"⟩, ["partial"])
      ∧ (¬ ∃ r, Event.printOutput "json" "sigs/broken.cose"
              ⟨"application/cose", ["partial"]⟩ r
            ∈ (runBlobInspect sampleDeps (sampleOpts "sigs/broken.cose" "json")).calls)
      ∧ (∀ ev ∈ (runBlobInspect sampleDeps (sampleOpts "sigs/broken.cose" "json")).calls,
            ev.kind ≠ .printer) := by
  have hres : sampleDeps.GetEnvelopeMediaType (sampleDeps.Ext "sigs/broken.cose")
      = .ok "application/cose" := by simp [sampleDeps, filepathExt_samples]
  have hread : sampleDeps.ReadFile "sigs/broken.cose" 10485760 = .ok [255] := by
    simp [sampleDeps, sampleReadFile, sampleFiles]
  have hinsp : sampleDeps.Signatures "application/cose" "" ⟨"application/cose", []⟩ [255]
      = (some ⟨"malformed envelope"⟩, ["partial"]) := by simp [sampleDeps]
  have hrun := run_inspector_error sampleDeps (sampleOpts "sigs/broken.cose" "json")
    "application/cose" [255] ⟨"malformed envelope"⟩ (Or.inl rfl) hres hread
    (by rw [hinsp])
  refine ⟨rfl, hres, hread, hinsp, ?_, ?_⟩
  · rw [hrun]
    simp
  · rw [hrun]
    intro ev hev
    simp only [List.mem_cons, List.mem_singleton, List.not_mem_nil, or_false] at hev
    rcases hev with h | h | h <;> subst h <;> simp [Event.kind]

/-- C7, amended: given an inspector error (valid format, resolved extension,
successful read), `runBlobInspect` returns nil without printing: the calls
made are the resolver, the reader and the inspector, in this order, and the
printer is not invoked. -/
theorem runBlobInspect_inspector_error_no_print {L σ : Type} (d : Deps σ)
    (opts : blobInspectOpts L) (mediaType : String) (signatureEnv : Bytes) (e : Error)
    (hfmt : opts.outputFormat = d.OutputJSON ∨ opts.outputFormat = d.OutputPlaintext)
    (hres : d.GetEnvelopeMediaType (d.Ext opts.signaturePath) = .ok mediaType)
    (hread : d.ReadFile opts.signaturePath 10485760 = .ok signatureEnv)
    (hinsp : (d.Signatures mediaType "" ⟨mediaType, []⟩ signatureEnv).1 = some e) :
    (runBlobInspect d opts).err = none
      ∧ (runBlobInspect d opts).calls
          = [.getEnvelopeMediaType (d.Ext opts.signaturePath) (.ok mediaType),
             .readFile opts.signaturePath 10485760 (.ok signatureEnv),
             .signatures mediaType "" ⟨mediaType, []⟩ signatureEnv
               (d.Signatures mediaType "" ⟨mediaType, []⟩ signatureEnv)]
      ∧ ∀ ev ∈ (runBlobInspect d opts).calls, ev.kind ≠ .printer := by
  rw [run_inspector_error d opts mediaType signatureEnv e hfmt hres hread hinsp]
  refine ⟨rfl, rfl, ?_⟩
  intro ev hev
  simp only [List.mem_cons, List.mem_singleton, List.not_mem_nil, or_false] at hev
  rcases hev with h | h | h <;> subst h <;> simp [Event.kind]

/-- Witness of the amended C7, on `sigs/broken.cose` with the plaintext
format. -/
theorem runBlobInspect_inspector_error_no_print_witness :
    (runBlobInspect sampleDeps (sampleOpts "sigs/broken.cose" "text")).err = none
      ∧ (runBlobInspect sampleDeps (sampleOpts "sigs/broken.cose" "text")).calls
          = [.getEnvelopeMediaType ".cose" (.ok "application/cose"),
             .readFile "sigs/broken.cose" 10485760 (.ok [255]),
             .signatures "application/cose" "" ⟨"application/cose", []⟩ [255]
               (some ⟨"malformed envelope"⟩, ["partial"])] := by
  have h := runBlobInspect_inspector_error_no_print sampleDeps
    (sampleOpts "sigs/broken.cose" "text") "application/cose" [255]
    ⟨"malformed envelope"⟩ (Or.inr rfl)
    (by simp [sampleDeps, sampleOpts, filepathExt_samples])
    (by simp [sampleDeps, sampleOpts, sampleReadFile, sampleFiles])
    (by simp [sampleDeps])
  refine ⟨h.1, ?_⟩
  rw [h.2.1]
  simp [sampleDeps, sampleOpts, filepathExt_samples]

/-- C8: on the success path (valid format; resolver, reader and inspector
succeed) the calls are resolver, reader, inspector, printer, in this order;
the printer is invoked exactly once, with the requested format, the signature
path and the output made of the resolved media type and the signatures the
inspector returned; and the error returned is the printer's. -/
theorem runBlobInspect_success_prints_once {L σ : Type} (d : Deps σ)
    (opts : blobInspectOpts L) (mediaType : String) (signatureEnv : Bytes)
    (sigs : List σ)
    (hfmt : opts.outputFormat = d.OutputJSON ∨ opts.outputFormat = d.OutputPlaintext)
    (hres : d.GetEnvelopeMediaType (d.Ext opts.signaturePath) = .ok mediaType)
    (hread : d.ReadFile opts.signaturePath 10485760 = .ok signatureEnv)
    (hinsp : d.Signatures mediaType "" ⟨mediaType, []⟩ signatureEnv = (none, sigs)) :
    (runBlobInspect d opts).calls
        = [.getEnvelopeMediaType (d.Ext opts.signaturePath) (.ok mediaType),
           .readFile opts.signaturePath 10485760 (.ok signatureEnv),
           .signatures mediaType "" ⟨mediaType, []⟩ signatureEnv (none, sigs),
           .printOutput opts.outputFormat opts.signaturePath
             { MediaType := mediaType, Signatures := sigs }
             (d.PrintOutput opts.outputFormat opts.signaturePath
               { MediaType := mediaType, Signatures := sigs })]
      ∧ ((runBlobInspect d opts).calls.filter
            (fun ev => decide (ev.kind = .printer))).length = 1
      ∧ (runBlobInspect d opts).err
          = d.PrintOutput opts.outputFormat opts.signaturePath
              { MediaType := mediaType, Signatures := sigs } := by
  have hinsp1 : (d.Signatures mediaType "" ⟨mediaType, []⟩ signatureEnv).1 = none := by
    rw [hinsp]
  rw [run_printed d opts mediaType signatureEnv hfmt hres hread hinsp1, hinsp]
  refine ⟨rfl, ?_, rfl⟩
  simp [List.filter, Event.kind]

/-- Witness of C8, on `sigs/good.jws` with the JSON format. -/
theorem runBlobInspect_success_prints_once_witness :
    (runBlobInspect sampleDeps (sampleOpts "sigs/good.jws" "json")).calls
        = [.getEnvelopeMediaType ".jws" (.ok "application/jose+json"),
           .readFile "sigs/good.jws" 10485760 (.ok [1, 2, 3]),
           .signatures "application/jose+json" "" ⟨"application/jose+json", []⟩ [1, 2, 3]
             (none, ["signer-1 application/jose+json", "signer-2 application/jose+json"]),
           .printOutput "json" "sigs/good.jws"
             ⟨"application/jose+json",
               ["signer-1 application/jose+json", "signer-2 application/jose+json"]⟩
             none]
      ∧ (runBlobInspect sampleDeps (sampleOpts "sigs/good.jws" "json")).err = none := by
  have h := runBlobInspect_success_prints_once sampleDeps
    (sampleOpts "sigs/good.jws" "json") "application/jose+json" [1, 2, 3]
    ["signer-1 application/jose+json", "signer-2 application/jose+json"] (Or.inl rfl)
    (by simp [sampleDeps, sampleOpts, filepathExt_samples])
    (by simp [sampleDeps, sampleOpts, sampleReadFile, sampleFiles])
    (by simp [sampleDeps])
  refine ⟨?_, ?_⟩
  · rw [h.1]
    simp [sampleDeps, sampleOpts, filepathExt_samples]
  · rw [h.2.2]
    simp [sampleDeps, sampleOpts]

/-- C9: for every options value and every behaviour of the collaborators,
`runBlobInspect` returns a non-nil error if and only if the format is not one
of the two constants, or media-type resolution fails, or the bounded read
fails, or the inspector succeeds and the printer fails.  The cases are met in
this order: with a valid format a resolver error is returned as it is, after a
successful resolution a read error is returned as it is, and after a
successful inspection a printer error is returned as it is, the failing
collaborator having been invoked; an inspector error gives nil, and a rejected
format gives the format error. -/
theorem runBlobInspect_failure_characterisation {L σ : Type} (d : Deps σ)
    (opts : blobInspectOpts L) :
    ((runBlobInspect d opts).err ≠ none ↔
        (opts.outputFormat ≠ d.OutputJSON ∧ opts.outputFormat ≠ d.OutputPlaintext)
          ∨ (∃ e, ResolutionFails d opts e)
          ∨ (∃ e, ReadFails d opts e)
          ∨ (∃ e, PrintFails d opts e))
      ∧ ((opts.outputFormat = d.OutputJSON ∨ opts.outputFormat = d.OutputPlaintext) →
          ∀ e, ResolutionFails d opts e →
            (runBlobInspect d opts).err = some e
              ∧ Event.getEnvelopeMediaType (d.Ext opts.signaturePath) (.error e)
                  ∈ (runBlobInspect d opts).calls)
      ∧ ((opts.outputFormat = d.OutputJSON ∨ opts.outputFormat = d.OutputPlaintext) →
          (∃ mediaType, d.GetEnvelopeMediaType (d.Ext opts.signaturePath) = .ok mediaType) →
          ∀ e, ReadFails d opts e →
            (runBlobInspect d opts).err = some e
              ∧ Event.readFile opts.signaturePath 10485760 (.error e)
                  ∈ (runBlobInspect d opts).calls)
      ∧ ((opts.outputFormat = d.OutputJSON ∨ opts.outputFormat = d.OutputPlaintext) →
          ∀ e, PrintFails d opts e →
            (runBlobInspect d opts).err = some e
              ∧ ∃ output, Event.printOutput opts.outputFormat opts.signaturePath output
                    (some e)
                  ∈ (runBlobInspect d opts).calls)
      ∧ ((opts.outputFormat = d.OutputJSON ∨ opts.outputFormat = d.OutputPlaintext) →
          ∀ e, InspectionFails d opts e → (runBlobInspect d opts).err = none)
      ∧ ((opts.outputFormat ≠ d.OutputJSON ∧ opts.outputFormat ≠ d.OutputPlaintext) →
          (runBlobInspect d opts).err
            = some ⟨"unrecognized output format " ++ opts.outputFormat⟩) := by
  by_cases hbad : opts.outputFormat ≠ d.OutputJSON ∧ opts.outputFormat ≠ d.OutputPlaintext
  · have hnv : ¬ (opts.outputFormat = d.OutputJSON ∨ opts.outputFormat = d.OutputPlaintext) :=
      fun h => (format_guard_iff d opts).mpr h hbad
    rw [run_bad_format d opts hbad]
    refine ⟨?_, fun h => absurd h hnv, fun h => absurd h hnv, fun h => absurd h hnv,
      fun h => absurd h hnv, fun _ => rfl⟩
    constructor
    · intro _
      exact Or.inl hbad
    · intro _
      simp
  · have hfmt := (format_guard_iff d opts).mp hbad
    cases hres : d.GetEnvelopeMediaType (d.Ext opts.signaturePath) with
    | error e1 =>
      rw [run_resolver_error d opts e1 hfmt hres]
      simp [ResolutionFails, ReadFails, PrintFails, InspectionFails, Inspected, hres, hbad]
    | ok mediaType =>
      cases hread : d.ReadFile opts.signaturePath 10485760 with
      | error e2 =>
        rw [run_read_error d opts mediaType e2 hfmt hres hread]
        simp [ResolutionFails, ReadFails, PrintFails, InspectionFails, Inspected, hres, hread,
          hbad]
      | ok signatureEnv =>
        cases hinsp : d.Signatures mediaType "" ⟨mediaType, []⟩ signatureEnv with
        | mk ierr sigs =>
          cases ierr with
          | some e3 =>
            rw [run_inspector_error d opts mediaType signatureEnv e3 hfmt hres hread
              (by rw [hinsp])]
            simp [ResolutionFails, ReadFails, PrintFails, InspectionFails, Inspected, hres,
              hread, hinsp, hbad]
            refine ⟨?_, fun _ => ?_⟩ <;>
              (intro e x x1 x2 hx hx1 hs
               subst hx
               subst hx1
               rw [hinsp] at hs
               simp at hs)
          | none =>
            rw [run_printed d opts mediaType signatureEnv hfmt hres hread (by rw [hinsp])]
            simp only [hinsp]
            cases hprint : d.PrintOutput opts.outputFormat opts.signaturePath
                ⟨mediaType, sigs⟩ with
            | some e4 =>
              simp [ResolutionFails, ReadFails, PrintFails, InspectionFails, Inspected, hres,
                hread, hinsp, hprint, hbad]
              refine ⟨⟨e4, mediaType, signatureEnv, sigs, ⟨rfl, rfl, hinsp⟩, hprint⟩,
                fun _ => ?_⟩
              intro e x x1 x2 hx hx1 hs hp
              subst hx
              subst hx1
              rw [hinsp] at hs
              have hs2 : sigs = x2 := (Prod.mk.inj hs).2
              subst hs2
              rw [hprint] at hp
              have hee : e4 = e := Option.some.inj hp
              exact ⟨hee, hee.symm⟩
            | none =>
              simp [ResolutionFails, ReadFails, PrintFails, InspectionFails, Inspected, hres,
                hread, hinsp, hprint, hbad]
              refine ⟨?_, fun _ => ?_⟩ <;>
                (intro e x x1 x2 hx hx1 hs
                 subst hx
                 subst hx1
                 rw [hinsp] at hs
                 have hs2 : sigs = x2 := (Prod.mk.inj hs).2
                 subst hs2
                 rw [hprint]
                 simp)

/-- Witness of C9: on `sigs/unprintable.jws` the sample inspector succeeds and
the sample printer fails, and the run returns the printer's error; on
`sigs/broken.cose` the sample inspector fails and the run returns nil. -/
theorem runBlobInspect_failure_characterisation_witness :
    PrintFails sampleDeps (sampleOpts "sigs/unprintable.jws" "text") ⟨"write: broken pipe"⟩
      ∧ (runBlobInspect sampleDeps (sampleOpts "sigs/unprintable.jws" "text")).err
          = some ⟨"write: broken pipe"⟩
      ∧ InspectionFails sampleDeps (sampleOpts "sigs/broken.cose" "json")
          ⟨"malformed envelope"⟩
      ∧ (runBlobInspect sampleDeps (sampleOpts "sigs/broken.cose" "json")).err = none := by
  have hp : PrintFails sampleDeps (sampleOpts "sigs/unprintable.jws" "text")
      ⟨"write: broken pipe"⟩ :=
    ⟨"application/jose+json", [7],
      ["signer-1 application/jose+json", "signer-2 application/jose+json"],
      ⟨by simp [sampleDeps, sampleOpts, filepathExt_samples],
        by simp [sampleDeps, sampleOpts, sampleReadFile, sampleFiles],
        by simp [sampleDeps]⟩,
      by simp [sampleDeps, sampleOpts]⟩
  have hi : InspectionFails sampleDeps (sampleOpts "sigs/broken.cose" "json")
      ⟨"malformed envelope"⟩ :=
    ⟨"application/cose", [255], ["partial"],
      by simp [sampleDeps, sampleOpts, filepathExt_samples],
      by simp [sampleDeps, sampleOpts, sampleReadFile, sampleFiles],
      by simp [sampleDeps]⟩
  exact ⟨hp,
    ((runBlobInspect_failure_characterisation sampleDeps
        (sampleOpts "sigs/unprintable.jws" "text")).2.2.2.1 (Or.inr rfl) _ hp).1,
    hi,
    (runBlobInspect_failure_characterisation sampleDeps
        (sampleOpts "sigs/broken.cose" "json")).2.2.2.2.1 (Or.inl rfl) _ hi⟩

/-- The sample printer fails on `sigs/unprintable.jws`: the run returns the
printer's error after the four calls. -/
theorem sample_print_failure :
    (runBlobInspect sampleDeps (sampleOpts "sigs/unprintable.jws" "text")).err
        = some ⟨"write: broken pipe"⟩
      ∧ ((runBlobInspect sampleDeps (sampleOpts "sigs/unprintable.jws" "text")).calls.map
            Event.kind)
          = [.resolver, .reader, .inspector, .printer] := by
  have h := run_printed sampleDeps (sampleOpts "sigs/unprintable.jws" "text")
    "application/jose+json" [7] (Or.inr rfl)
    (by simp [sampleDeps, sampleOpts, filepathExt_samples])
    (by simp [sampleDeps, sampleOpts, sampleReadFile, sampleFiles])
    (by simp [sampleDeps])
  rw [h]
  simp [sampleDeps, sampleOpts, Event.kind]

end BlobInspect
